import Mathlib

/-!
Verification of the offline-pay backend's settlement and balance-ledger core.

The definitions below are a shallow embedding of the Express handlers in the
repository's `server.js` (the `/api/vouchers/sync`, `/api/balance/add` and
`/api/balance/deduct` routes) together with the MongoDB collections they
mutate.  MongoDB collections are modelled as Lean lists of records; JavaScript
values that may be `undefined`/`null` are modelled as `Option`; JavaScript
string truthiness (`!s` is true for `undefined`, `null` and `""`) is modelled
by `strVal`.  The external `crypto` / `elliptic` libraries are modelled by an
abstract `Crypto` record of functions: `sha256Hex` stands for
`crypto.createHash("sha256")...digest("hex")`, `keyParses` for whether
`ec.keyFromPublic(pub, "hex")` succeeds, and `verify pub msgHash sig` returns
`none` when `key.verify` throws and `some b` when it returns the boolean `b`.
Theorems quantify over this record, so they hold for every behaviour of the
external library.
-/

namespace OfflinePay

/-- JavaScript truthiness for an optional string: `undefined`, `null` and the
empty string are all falsy.  `strVal o = some s` exactly when the JS value is
a truthy string `s`. -/
def strVal : Option String → Option String
  | none => none
  | some s => if s = "" then none else some s

/-- A voucher as it arrives in the request body of `POST /api/vouchers/sync`.
Every field may be absent (`none`); `amount = some a` models
`typeof v.amount === "number"` holding with value `a` (amounts are treated as
integers / minor units, as the repository does). -/
structure Voucher where
  voucherId : Option String
  merchantId : Option String
  amount : Option Int
  createdAt : Option String
  issuedTo : Option String
  publicKeyHex : Option String
  signature : Option String
deriving DecidableEq, Repr

/-- A document of the `vouchers` collection, as inserted by the sync handler:
`{ ...payload, signature, merchantId, status: "synced", syncedAt }`. -/
structure StoredVoucher where
  voucherId : String
  merchantId : String
  amount : Int
  createdAt : Option String
  issuedTo : String
  signature : String
  status : String
  syncedAt : String
deriving DecidableEq, Repr

/-- One entry of a user's `balanceHistory` array.  `htype` models the `type`
field (`"add"` for top-ups, `"payment"` for deductions); `merchantId` and
`voucherId` are the payment context, present only on `"payment"` entries. -/
structure HistoryEntry where
  htype : String
  amount : Int
  timestamp : String
  previousBalance : Int
  newBalance : Int
  merchantId : Option String
  voucherId : Option String
deriving DecidableEq, Repr

/-- A document of the `users` collection.  `balance = none` models a user
document without a `balance` field (as created by the sync handler's
auto-registration); the code reads it as `user.balance || 0`. -/
structure User where
  userId : String
  publicKeyHex : Option String
  balance : Option Int
  balanceHistory : List HistoryEntry
deriving DecidableEq, Repr

/-- The database state touched by the settlement and balance paths: the
`vouchers` and `users` collections. -/
structure DBState where
  vouchers : List StoredVoucher
  users : List User
deriving DecidableEq, Repr

/-- The external cryptography, abstracted: `sha256Hex` is the hex SHA-256
digest, `keyParses pub` says whether `ec.keyFromPublic(pub, "hex")` succeeds,
and `verify pub msgHash sig` is `none` when `key.verify(msgHash, sig)` throws
and `some b` when it returns `b`. -/
structure Crypto where
  sha256Hex : String → String
  keyParses : String → Bool
  verify : String → String → String → Option Bool

/-- Mirrors `vouchersCollection.findOne({ voucherId })`. -/
def findVoucher (st : DBState) (vid : String) : Option StoredVoucher :=
  st.vouchers.find? (fun sv => sv.voucherId = vid)

/-- Mirrors `usersCollection.findOne({ userId })`. -/
def findUser (users : List User) (uid : String) : Option User :=
  users.find? (fun u => u.userId = uid)

/-- Mirrors `usersCollection.updateOne({ userId }, ...)`: rewrites the first
document matching `uid` with `f`. -/
def updateFirst (users : List User) (uid : String) (f : User → User) : List User :=
  match users with
  | [] => []
  | u :: rest => if u.userId = uid then f u :: rest else u :: updateFirst rest uid f

/-- The canonical payload rebuilt by the sync handler:
`JSON.stringify({ voucherId, merchantId, amount, createdAt, issuedTo })`.
`JSON.stringify` emits the keys in insertion order, and omits `createdAt`
entirely when the property is `undefined`. -/
def canonicalPayload (vid vmid : String) (amt : Int) (createdAt : Option String)
    (iss : String) : String :=
  "\x7b\"voucherId\":\"" ++ vid ++ "\",\"merchantId\":\"" ++ vmid ++
    "\",\"amount\":" ++ toString amt ++
    (match createdAt with
     | some c => ",\"createdAt\":\"" ++ c ++ "\""
     | none => "") ++
    ",\"issuedTo\":\"" ++ iss ++ "\"\x7d"

/-- The digest the handler verifies:
`crypto.createHash("sha256").update(JSON.stringify(payload)).digest("hex")`. -/
def msgHashOf (c : Crypto) (vid vmid : String) (amt : Int) (createdAt : Option String)
    (iss : String) : String :=
  c.sha256Hex (canonicalPayload vid vmid amt createdAt iss)

/-- The canonical payload of a request voucher, defined when the fields the
handler reads at that point are present.  It is built from exactly the five
fields `voucherId, merchantId, amount, createdAt, issuedTo`; in particular
`signature` and `publicKeyHex` are not consulted. -/
def voucherPayload (v : Voucher) : Option String :=
  match strVal v.voucherId, strVal v.merchantId, v.amount, strVal v.issuedTo with
  | some vid, some vmid, some amt, some iss =>
      some (canonicalPayload vid vmid amt v.createdAt iss)
  | _, _, _, _ => none

/-- Key resolution of the sync handler:
`let userPubHex = v.publicKeyHex; if (!userPubHex) userPubHex = user?.publicKeyHex`
where `user = usersCollection.findOne({ userId: issuedTo })`. -/
def resolveKey (st : DBState) (issuedTo : String) (inline : Option String) : Option String :=
  match strVal inline with
  | some k => some k
  | none => strVal ((findUser st.users issuedTo).bind User.publicKeyHex)

/-- The `try { key = ec.keyFromPublic(...); ok = key.verify(...) } catch` block:
returns `none` when verification passes, otherwise the rejection reason.  A
throw anywhere in the block (unparseable key, or a signature whose
verification throws) yields `"Signature verify error"`; a verification that
returns `false` yields `"Bad signature"`. -/
def verifyStep (c : Crypto) (pub msgHash sig : String) : Option String :=
  if c.keyParses pub then
    match c.verify pub msgHash sig with
    | some true => none
    | some false => some "Bad signature"
    | none => some "Signature verify error"
  else some "Signature verify error"

/-- Outcome of processing one voucher: it is either pushed onto `syncedIds` or
onto `rejected` with a `{voucherId, reason}` entry (the pushed `voucherId` is
the raw request field, hence optional). -/
inductive StepResult where
  | synced (vid : String)
  | rejectedR (voucherId : Option String) (reason : String)
deriving DecidableEq, Repr

/-- The body of the `for (const v of vouchers)` loop of `POST
/api/vouchers/sync`, translated branch for branch: structural validation,
merchant match, `issuedTo` presence, public-key resolution, signature
verification, duplicate check, auto-registration of the payer, and the
insert of the voucher with `status: "synced"`. -/
def syncOne (c : Crypto) (now batchMid : String) (st : DBState) (v : Voucher) :
    DBState × StepResult :=
  match strVal v.voucherId, strVal v.merchantId, v.amount, strVal v.signature with
  | some vid, some vmid, some amt, some sig =>
    if vmid ≠ batchMid then (st, .rejectedR v.voucherId "Wrong merchantId")
    else
      match strVal v.issuedTo with
      | none => (st, .rejectedR v.voucherId "Missing issuedTo")
      | some issuedTo =>
        match resolveKey st issuedTo v.publicKeyHex with
        | none => (st, .rejectedR v.voucherId "Missing public key in voucher")
        | some pub =>
          match verifyStep c pub (msgHashOf c vid vmid amt v.createdAt issuedTo) sig with
          | some reason => (st, .rejectedR v.voucherId reason)
          | none =>
            if (findVoucher st vid).isSome then
              (st, .rejectedR v.voucherId "Duplicate voucherId")
            else
              let users' :=
                if (findUser st.users issuedTo).isNone then
                  st.users ++ [{ userId := issuedTo, publicKeyHex := some pub,
                                 balance := none, balanceHistory := [] }]
                else st.users
              ({ vouchers := st.vouchers ++
                   [{ voucherId := vid, merchantId := batchMid, amount := amt,
                      createdAt := v.createdAt, issuedTo := issuedTo,
                      signature := sig, status := "synced", syncedAt := now }],
                 users := users' },
               .synced vid)
  | _, _, _, _ => (st, .rejectedR v.voucherId "Invalid format")

/-- A `{voucherId, reason}` entry of the `rejected` array. -/
structure RejEntry where
  voucherId : Option String
  reason : String
deriving DecidableEq, Repr

/-- The whole per-voucher loop: processes the batch in input order, collecting
`syncedIds` and `rejected` without short-circuiting. -/
def syncBatch (c : Crypto) (now batchMid : String) (st : DBState) :
    List Voucher → DBState × List String × List RejEntry
  | [] => (st, [], [])
  | v :: vs =>
    match syncOne c now batchMid st v with
    | (st', .synced vid) =>
      let rest := syncBatch c now batchMid st' vs
      (rest.1, vid :: rest.2.1, rest.2.2)
    | (st', .rejectedR vidO r) =>
      let rest := syncBatch c now batchMid st' vs
      (rest.1, rest.2.1, ⟨vidO, r⟩ :: rest.2.2)

/-- The request body of `POST /api/vouchers/sync`. -/
structure SyncRequest where
  merchantId : String
  vouchers : List Voucher
deriving DecidableEq, Repr

/-- The response of a successful sync: `{ syncedIds, rejected, totalStored }`
where `totalStored = vouchersCollection.countDocuments()` after the loop. -/
structure SyncResult where
  syncedIds : List String
  rejected : List RejEntry
  totalStored : Nat
deriving DecidableEq, Repr

/-- The full handler: rejects an invalid body (`!merchantId`), otherwise runs
the loop and reports the new collection size. -/
def syncRequest (c : Crypto) (now : String) (st : DBState) (r : SyncRequest) :
    DBState × Except String SyncResult :=
  if r.merchantId = "" then (st, .error "Invalid body")
  else
    let out := syncBatch c now r.merchantId st r.vouchers
    (out.1, .ok { syncedIds := out.2.1, rejected := out.2.2,
                  totalStored := out.1.vouchers.length })

/-- A sequence of sync requests processed one after another. -/
def processRequests (c : Crypto) (now : String) (st : DBState) :
    List SyncRequest → DBState
  | [] => st
  | r :: rs => processRequests c now (syncRequest c now st r).1 rs

/-- The voucher identifiers currently stored in the ledger. -/
def ledgerIds (st : DBState) : List String :=
  st.vouchers.map StoredVoucher.voucherId

/-- The rejection reason of a step, `none` for an admission. -/
def stepReason : StepResult → Option String
  | .synced _ => none
  | .rejectedR _ r => some r

/-- Modelled from the claim wording of C10 (the source performs the same
checks inline in `syncOne`): the reason of the first failing check, applying
the checks in the claimed order — structural format, merchant match,
`issuedTo` presence, public-key availability, signature validity, then
duplicate `voucherId` — and `none` when every check passes. -/
def firstFailingReason (c : Crypto) (batchMid : String) (st : DBState) (v : Voucher) :
    Option String :=
  if strVal v.voucherId = none ∨ strVal v.merchantId = none ∨ v.amount = none ∨
      strVal v.signature = none then some "Invalid format"
  else if strVal v.merchantId ≠ some batchMid then some "Wrong merchantId"
  else if strVal v.issuedTo = none then some "Missing issuedTo"
  else
    let vid := ((strVal v.voucherId).getD "")
    let vmid := ((strVal v.merchantId).getD "")
    let amt := (v.amount.getD 0)
    let sig := ((strVal v.signature).getD "")
    let iss := ((strVal v.issuedTo).getD "")
    match resolveKey st iss v.publicKeyHex with
    | none => some "Missing public key in voucher"
    | some pub =>
      match verifyStep c pub (msgHashOf c vid vmid amt v.createdAt iss) sig with
      | some r => some r
      | none =>
        if (findVoucher st vid).isSome then some "Duplicate voucherId" else none

/-- Result of a balance operation, mirroring the JSON responses of the two
balance handlers. -/
inductive BalResult where
  | ok (balance : Int)
  | invalidAmount
  | maxExceeded
  | userNotFound
  | insufficient (required available : Int)
deriving DecidableEq, Repr

/-- The `POST /api/balance/add` handler for an authenticated `uid`:
rejects `!amount || typeof amount !== "number" || amount <= 0`, then
`amount > 1000`, then a missing user; otherwise sets
`balance := (user.balance || 0) + amount` and pushes an `"add"` history
entry. -/
def balanceAdd (users : List User) (uid : String) (amount : Option Int) (now : String) :
    List User × BalResult :=
  match amount with
  | none => (users, .invalidAmount)
  | some a =>
    if a ≤ 0 then (users, .invalidAmount)
    else if 1000 < a then (users, .maxExceeded)
    else
      match findUser users uid with
      | none => (users, .userNotFound)
      | some user =>
        let prev := user.balance.getD 0
        let nb := prev + a
        (updateFirst users uid (fun u =>
            { u with balance := some nb,
                     balanceHistory := u.balanceHistory ++
                       [{ htype := "add", amount := a, timestamp := now,
                          previousBalance := prev, newBalance := nb,
                          merchantId := none, voucherId := none }] }),
         .ok nb)

/-- The `POST /api/balance/deduct` handler for an authenticated `uid`:
rejects a non-positive or non-numeric amount, a missing user, and
`currentBalance < amount` (reporting `required`/`available`); otherwise sets
`balance := currentBalance - amount` and pushes a `"payment"` history entry
carrying the `merchantId`/`voucherId` context from the body. -/
def balanceDeduct (users : List User) (uid : String) (amount : Option Int)
    (mId vId : Option String) (now : String) : List User × BalResult :=
  match amount with
  | none => (users, .invalidAmount)
  | some a =>
    if a ≤ 0 then (users, .invalidAmount)
    else
      match findUser users uid with
      | none => (users, .userNotFound)
      | some user =>
        let cur := user.balance.getD 0
        if cur < a then (users, .insufficient a cur)
        else
          let nb := cur - a
          (updateFirst users uid (fun u =>
              { u with balance := some nb,
                       balanceHistory := u.balanceHistory ++
                         [{ htype := "payment", amount := a, timestamp := now,
                            previousBalance := cur, newBalance := nb,
                            merchantId := mId, voucherId := vId }] }),
           .ok nb)

/-- A credit (`/api/balance/add`) or debit (`/api/balance/deduct`) request for
one identity. -/
inductive BalOp where
  | credit (amount : Option Int)
  | debit (amount : Option Int) (mId vId : Option String)
deriving DecidableEq, Repr

/-- Dispatch one balance operation to the corresponding handler. -/
def applyBalOp (users : List User) (uid : String) (now : String) :
    BalOp → List User × BalResult
  | .credit a => balanceAdd users uid a now
  | .debit a m v => balanceDeduct users uid a m v now

/-- Apply a sequence of balance operations one after another. -/
def applyBalOps (users : List User) (uid : String) (now : String) :
    List BalOp → List User
  | [] => users
  | op :: ops => applyBalOps (applyBalOp users uid now op).1 uid now ops

/-- The effective balance the handlers read: `user.balance || 0` of the first
matching user document, `0` when the identity has no document. -/
def effBal (users : List User) (uid : String) : Int :=
  ((findUser users uid).map (fun u => u.balance.getD 0)).getD 0

/-- Amount contributed by one operation to the admitted-credit sum. -/
def creditAmt : BalOp → BalResult → Int
  | .credit (some a), .ok _ => a
  | _, _ => 0

/-- Amount contributed by one operation to the admitted-debit sum. -/
def debitAmt : BalOp → BalResult → Int
  | .debit (some a) _ _, .ok _ => a
  | _, _ => 0

/-- Sum of the amounts of the credit operations that the handlers admit along
the run. -/
def admittedCreditSum (users : List User) (uid : String) (now : String) :
    List BalOp → Int
  | [] => 0
  | op :: ops =>
    let p := applyBalOp users uid now op
    creditAmt op p.2 + admittedCreditSum p.1 uid now ops

/-- Sum of the amounts of the debit operations that the handlers admit along
the run. -/
def admittedDebitSum (users : List User) (uid : String) (now : String) :
    List BalOp → Int
  | [] => 0
  | op :: ops =>
    let p := applyBalOp users uid now op
    debitAmt op p.2 + admittedDebitSum p.1 uid now ops


/-! Concrete fixtures used by witnesses and counterexamples.  The `Crypto`
records below are realisable behaviours of the external library: `cryptoOk`
behaves as the library does on a correctly signed voucher (key parses,
verification returns `true`), `cryptoBad` as on a voucher whose signature
does not match the digest (verification returns `false`), and `cryptoFail`
exhibits the three cryptographic failure conditions on distinct inputs. -/

/-- Behaviour of the external library on correctly signed vouchers: the key
parses and `key.verify` returns `true`. -/
def cryptoOk : Crypto :=
  { sha256Hex := fun s => s, keyParses := fun _ => true, verify := fun _ _ _ => some true }

/-- Behaviour of the external library on a tampered voucher: the key parses
and `key.verify` returns `false` (digest mismatch). -/
def cryptoBad : Crypto :=
  { sha256Hex := fun s => s, keyParses := fun _ => true, verify := fun _ _ _ => some false }

/-- Behaviour of the external library exhibiting the three cryptographic
failure conditions: the key `"badkey"` cannot be parsed
(`ec.keyFromPublic` throws), the signature `"throwsig"` makes `key.verify`
throw (malformed DER), and any other signature makes `key.verify` return
`false` (valid encodings over the wrong digest). -/
def cryptoFail : Crypto :=
  { sha256Hex := fun s => s, keyParses := fun k => k ≠ "badkey",
    verify := fun _ _ sig => if sig = "throwsig" then none else some false }

/-- A well-formed voucher for merchant `M1`, signed by `u1`. -/
def voucher1 : Voucher :=
  { voucherId := some "v1", merchantId := some "M1", amount := some 50,
    createdAt := some "t0", issuedTo := some "u1", publicKeyHex := some "K1",
    signature := some "sig1" }

/-- Sibling of `voucher1` with the same five payload fields but a different
signature and no inline public key. -/
def voucher1b : Voucher :=
  { voucher1 with signature := some "othersig", publicKeyHex := none }

/-- A voucher whose `amount` is the number `-5`: a number, hence it passes
the handler's `typeof v.amount !== "number"` check. -/
def voucherNeg : Voucher :=
  { voucher1 with voucherId := some "v2", amount := some (-5) }

/-- A voucher lacking the `signature` field. -/
def voucherNoSig : Voucher :=
  { voucher1 with signature := none }

/-- A voucher carrying the unparseable key `"badkey"`. -/
def voucherBadKey : Voucher :=
  { voucher1 with publicKeyHex := some "badkey" }

/-- A voucher whose signature makes the verifier throw. -/
def voucherThrowSig : Voucher :=
  { voucher1 with voucherId := some "v3", signature := some "throwsig" }

/-- A voucher whose signature is well-formed but does not verify. -/
def voucherFalseSig : Voucher :=
  { voucher1 with voucherId := some "v4", signature := some "othersig" }

/-- The empty database. -/
def emptyState : DBState := { vouchers := [], users := [] }

/-- The ledger document created by admitting `voucher1` at time `t1`. -/
def storedV1 : StoredVoucher :=
  { voucherId := "v1", merchantId := "M1", amount := 50, createdAt := some "t0",
    issuedTo := "u1", signature := "sig1", status := "synced", syncedAt := "t1" }

/-- A database state already holding `voucher1`, with no user records. -/
def stWithV1 : DBState := { vouchers := [storedV1], users := [] }

/-- A user record with a balance of 100 and empty history. -/
def user100 : User :=
  { userId := "u1", publicKeyHex := none, balance := some 100, balanceHistory := [] }

/-! General lemmas about the sync handler. -/

theorem strVal_some_ne_empty (o : Option String) (k : String) (h : strVal o = some k) :
    k ≠ "" := by
  cases o with
  | none => cases h
  | some s =>
    by_cases hs : s = ""
    · rw [strVal] at h; simp [hs] at h
    · rw [strVal] at h; simp [hs] at h; rw [← h]; exact hs

theorem resolveKey_some_ne_empty (st : DBState) (iss : String) (inline : Option String)
    (pub : String) (h : resolveKey st iss inline = some pub) : pub ≠ "" := by
  cases hi : strVal inline with
  | some k =>
    have hk : k = pub := by simpa [resolveKey, hi] using h
    exact hk ▸ strVal_some_ne_empty inline k hi
  | none =>
    have h2 : strVal ((findUser st.users iss).bind User.publicKeyHex) = some pub := by
      simpa [resolveKey, hi] using h
    exact strVal_some_ne_empty _ pub h2

theorem findUser_append_right (users : List User) (uid : String) (u : User)
    (h : findUser users uid = none) (hu : u.userId = uid) :
    findUser (users ++ [u]) uid = some u := by
  induction users with
  | nil => simp [findUser, hu]
  | cons w rest ih =>
    rw [findUser, List.cons_append, List.find?_cons]
    rw [findUser, List.find?_cons] at h
    by_cases hw : w.userId = uid
    · simp [hw] at h
    · simp only [hw, decide_eq_true_eq, if_false] at h ⊢
      simp only [hw, decide_false_eq_false] at h ⊢
      exact ih h

theorem verifyStep_values (c : Crypto) (pub msgHash sig r : String)
    (h : verifyStep c pub msgHash sig = some r) :
    r = "Bad signature" ∨ r = "Signature verify error" := by
  by_cases hk : c.keyParses pub
  · cases hv : c.verify pub msgHash sig with
    | none =>
      have hr : ("Signature verify error" : String) = r := by
        simpa [verifyStep, hk, hv] using h
      exact Or.inr hr.symm
    | some b =>
      cases b with
      | false =>
        have hr : ("Bad signature" : String) = r := by
          simpa [verifyStep, hk, hv] using h
        exact Or.inl hr.symm
      | true => exact absurd h (by simp [verifyStep, hk, hv])
  · have hr : ("Signature verify error" : String) = r := by
      simpa [verifyStep, hk] using h
    exact Or.inr hr.symm

theorem sync_check_order (c : Crypto) (now bmid : String) (st : DBState) (v : Voucher) :
    stepReason (syncOne c now bmid st v).2 = firstFailingReason c bmid st v := by
  cases h1 : strVal v.voucherId with
  | none => simp [syncOne, firstFailingReason, stepReason, h1]
  | some vid =>
  cases h2 : strVal v.merchantId with
  | none => simp [syncOne, firstFailingReason, stepReason, h1, h2]
  | some vmid =>
  cases h3 : v.amount with
  | none => simp [syncOne, firstFailingReason, stepReason, h1, h2, h3]
  | some amt =>
  cases h4 : strVal v.signature with
  | none => simp [syncOne, firstFailingReason, stepReason, h1, h2, h3, h4]
  | some sig =>
  by_cases h5 : vmid = bmid
  case neg =>
    simp [syncOne, firstFailingReason, stepReason, h1, h2, h3, h4, h5]
  case pos =>
  subst h5
  cases h6 : strVal v.issuedTo with
  | none => simp [syncOne, firstFailingReason, stepReason, h1, h2, h3, h4, h6]
  | some iss =>
  cases h7 : resolveKey st iss v.publicKeyHex with
  | none => simp [syncOne, firstFailingReason, stepReason, h1, h2, h3, h4, h6, h7]
  | some pub =>
  cases h8 : verifyStep c pub (msgHashOf c vid vmid amt v.createdAt iss) sig with
  | some r => simp [syncOne, firstFailingReason, stepReason, h1, h2, h3, h4, h6, h7, h8]
  | none =>
  by_cases h9 : (findVoucher st vid).isSome
  · simp [syncOne, firstFailingReason, stepReason, h1, h2, h3, h4, h6, h7, h8, h9]
  · simp [syncOne, firstFailingReason, stepReason, h1, h2, h3, h4, h6, h7, h8, h9]

theorem syncOne_split (c : Crypto) (now bmid : String) (st : DBState) (v : Voucher) :
    (∃ r, syncOne c now bmid st v = (st, .rejectedR v.voucherId r)) ∨
    (∃ vid rec, strVal v.voucherId = some vid ∧ findVoucher st vid = none ∧
      rec.voucherId = vid ∧
      (syncOne c now bmid st v).1.vouchers = st.vouchers ++ [rec] ∧
      (syncOne c now bmid st v).2 = .synced vid) := by
  cases h1 : strVal v.voucherId with
  | none => exact Or.inl ⟨"Invalid format", by simp [syncOne, h1]⟩
  | some vid =>
  cases h2 : strVal v.merchantId with
  | none => exact Or.inl ⟨"Invalid format", by simp [syncOne, h1, h2]⟩
  | some vmid =>
  cases h3 : v.amount with
  | none => exact Or.inl ⟨"Invalid format", by simp [syncOne, h1, h2, h3]⟩
  | some amt =>
  cases h4 : strVal v.signature with
  | none => exact Or.inl ⟨"Invalid format", by simp [syncOne, h1, h2, h3, h4]⟩
  | some sig =>
  by_cases h5 : vmid = bmid
  case neg =>
    exact Or.inl ⟨"Wrong merchantId", by simp [syncOne, h1, h2, h3, h4, h5]⟩
  case pos =>
  subst h5
  cases h6 : strVal v.issuedTo with
  | none => exact Or.inl ⟨"Missing issuedTo", by simp [syncOne, h1, h2, h3, h4, h6]⟩
  | some iss =>
  cases h7 : resolveKey st iss v.publicKeyHex with
  | none =>
    exact Or.inl ⟨"Missing public key in voucher", by simp [syncOne, h1, h2, h3, h4, h6, h7]⟩
  | some pub =>
  cases h8 : verifyStep c pub (msgHashOf c vid vmid amt v.createdAt iss) sig with
  | some r => exact Or.inl ⟨r, by simp [syncOne, h1, h2, h3, h4, h6, h7, h8]⟩
  | none =>
  by_cases h9 : (findVoucher st vid).isSome
  · exact Or.inl ⟨"Duplicate voucherId", by simp [syncOne, h1, h2, h3, h4, h6, h7, h8, h9]⟩
  · right
    refine ⟨vid, { voucherId := vid, merchantId := vmid, amount := amt,
                   createdAt := v.createdAt, issuedTo := iss, signature := sig,
                   status := "synced", syncedAt := now }, rfl,
            Option.not_isSome_iff_eq_none.mp h9, rfl, ?_, ?_⟩ <;>
      simp [syncOne, h1, h2, h3, h4, h6, h7, h8, h9]

theorem syncOne_reject_fst (c : Crypto) (now bmid : String) (st : DBState) (v : Voucher)
    (vidO : Option String) (r : String)
    (h : (syncOne c now bmid st v).2 = .rejectedR vidO r) :
    (syncOne c now bmid st v).1 = st := by
  rcases syncOne_split c now bmid st v with ⟨r2, h1⟩ | ⟨vid, rec, _, _, _, _, h2⟩
  · rw [h1]
  · rw [h2] at h; cases h

theorem syncOne_reject_full (c : Crypto) (now bmid : String) (st : DBState) (v : Voucher)
    (r : String) (h : stepReason (syncOne c now bmid st v).2 = some r) :
    syncOne c now bmid st v = (st, .rejectedR v.voucherId r) := by
  rcases syncOne_split c now bmid st v with ⟨r2, h1⟩ | ⟨vid, rec, _, _, _, _, h2⟩
  · rw [h1] at h ⊢
    simp only [stepReason, Option.some.injEq] at h
    rw [h]
  · rw [h2] at h; simp [stepReason] at h

theorem syncOne_duplicate (c : Crypto) (now bmid : String) (st : DBState) (v : Voucher)
    (vid : String) (amt : Int) (sig iss pub : String)
    (h1 : strVal v.voucherId = some vid) (h2 : strVal v.merchantId = some bmid)
    (h3 : v.amount = some amt) (h4 : strVal v.signature = some sig)
    (h6 : strVal v.issuedTo = some iss)
    (h7 : resolveKey st iss v.publicKeyHex = some pub)
    (h8 : verifyStep c pub (msgHashOf c vid bmid amt v.createdAt iss) sig = none)
    (h9 : (findVoucher st vid).isSome) :
    syncOne c now bmid st v = (st, .rejectedR v.voucherId "Duplicate voucherId") := by
  simp [syncOne, h1, h2, h3, h4, h6, h7, h8, h9]

theorem findVoucher_none_not_mem (st : DBState) (vid : String)
    (h : findVoucher st vid = none) : vid ∉ ledgerIds st := by
  intro hmem
  rw [ledgerIds, List.mem_map] at hmem
  obtain ⟨sv, hsv, hid⟩ := hmem
  rw [findVoucher, List.find?_eq_none] at h
  exact absurd hid (by simpa using h sv hsv)

theorem syncOne_nodup (c : Crypto) (now bmid : String) (st : DBState) (v : Voucher)
    (h : (ledgerIds st).Nodup) : (ledgerIds (syncOne c now bmid st v).1).Nodup := by
  rcases syncOne_split c now bmid st v with ⟨r, h1⟩ | ⟨vid, rec, _, hnone, hrec, hvch, _⟩
  · rw [h1]; exact h
  · rw [ledgerIds, hvch, List.map_append]
    simp only [List.map_cons, List.map_nil]
    rw [List.nodup_append]
    refine ⟨h, List.nodup_singleton _, ?_⟩
    simp only [List.disjoint_singleton, hrec]
    exact findVoucher_none_not_mem st vid hnone

theorem syncBatch_nodup (c : Crypto) (now bmid : String) (st : DBState) (vs : List Voucher)
    (h : (ledgerIds st).Nodup) : (ledgerIds (syncBatch c now bmid st vs).1).Nodup := by
  induction vs generalizing st with
  | nil => simpa [syncBatch] using h
  | cons v vs ih =>
    have h1 := syncOne_nodup c now bmid st v h
    rcases h2 : syncOne c now bmid st v with ⟨st', res⟩
    rw [h2] at h1
    cases res <;> simp [syncBatch, h2] <;> exact ih st' h1

theorem syncRequest_nodup (c : Crypto) (now : String) (st : DBState) (r : SyncRequest)
    (h : (ledgerIds st).Nodup) : (ledgerIds (syncRequest c now st r).1).Nodup := by
  rw [syncRequest]
  by_cases hb : r.merchantId = ""
  · simpa [hb] using h
  · simpa [hb] using syncBatch_nodup c now r.merchantId st r.vouchers h

theorem processRequests_nodup (c : Crypto) (now : String) (st : DBState)
    (reqs : List SyncRequest) (h : (ledgerIds st).Nodup) :
    (ledgerIds (processRequests c now st reqs)).Nodup := by
  induction reqs generalizing st with
  | nil => simpa [processRequests] using h
  | cons r rs ih =>
    rw [processRequests]
    exact ih _ (syncRequest_nodup c now st r h)

theorem syncBatch_length (c : Crypto) (now bmid : String) (st : DBState) (vs : List Voucher) :
    (syncBatch c now bmid st vs).2.1.length + (syncBatch c now bmid st vs).2.2.length
      = vs.length := by
  induction vs generalizing st with
  | nil => simp [syncBatch]
  | cons v vs ih =>
    rcases h : syncOne c now bmid st v with ⟨st', res⟩
    have := ih st'
    cases res <;> simp [syncBatch, h] <;> omega

theorem syncBatch_skip (c : Crypto) (now bmid : String) (st : DBState) (v : Voucher)
    (vs : List Voucher) (vidO : Option String) (r : String)
    (h : (syncOne c now bmid st v).2 = .rejectedR vidO r) :
    syncBatch c now bmid st (v :: vs) =
      ((syncBatch c now bmid st vs).1, (syncBatch c now bmid st vs).2.1,
        ⟨vidO, r⟩ :: (syncBatch c now bmid st vs).2.2) := by
  have hst := syncOne_reject_fst c now bmid st v vidO r h
  rcases h2 : syncOne c now bmid st v with ⟨st', res⟩
  rw [h2] at h hst
  simp only at h hst
  subst h hst
  simp [syncBatch, h2]

/-! General lemmas about the balance handlers. -/

theorem findUser_updateFirst (users : List User) (uid : String) (f : User → User)
    (hf : ∀ u, (f u).userId = u.userId) :
    findUser (updateFirst users uid f) uid = (findUser users uid).map f := by
  induction users with
  | nil => simp [findUser, updateFirst]
  | cons u rest ih =>
    by_cases hu : u.userId = uid
    · have hfu : (f u).userId = uid := by rw [hf u, hu]
      simp [findUser, updateFirst, hu, hfu, List.find?_cons]
    · simp only [updateFirst, hu, if_false]
      simp only [findUser, List.find?_cons] at ih ⊢
      simp [hu, ih]

theorem applyBalOp_effBal (users : List User) (uid now : String) (op : BalOp) :
    effBal (applyBalOp users uid now op).1 uid =
      effBal users uid + creditAmt op (applyBalOp users uid now op).2
        - debitAmt op (applyBalOp users uid now op).2 := by
  cases op with
  | credit a =>
    cases a with
    | none => simp [applyBalOp, balanceAdd, creditAmt, debitAmt]
    | some x =>
      by_cases hx : x ≤ 0
      · simp [applyBalOp, balanceAdd, hx, creditAmt, debitAmt]
      · by_cases hx2 : 1000 < x
        · simp [applyBalOp, balanceAdd, hx, hx2, creditAmt, debitAmt]
        · cases hu : findUser users uid with
          | none => simp [applyBalOp, balanceAdd, hx, hx2, hu, creditAmt, debitAmt]
          | some user =>
            simp [applyBalOp, balanceAdd, hx, hx2, hu, creditAmt, debitAmt, effBal,
              findUser_updateFirst]
  | debit a mId vId =>
    cases a with
    | none => simp [applyBalOp, balanceDeduct, creditAmt, debitAmt]
    | some x =>
      by_cases hx : x ≤ 0
      · simp [applyBalOp, balanceDeduct, hx, creditAmt, debitAmt]
      · cases hu : findUser users uid with
        | none => simp [applyBalOp, balanceDeduct, hx, hu, creditAmt, debitAmt]
        | some user =>
          by_cases hc : user.balance.getD 0 < x
          · simp [applyBalOp, balanceDeduct, hx, hu, hc, creditAmt, debitAmt]
          · simp [applyBalOp, balanceDeduct, hx, hu, hc, creditAmt, debitAmt, effBal,
              findUser_updateFirst]

theorem creditAmt_nonneg (users : List User) (uid now : String) (op : BalOp) :
    0 ≤ creditAmt op (applyBalOp users uid now op).2 := by
  cases op with
  | credit a =>
    cases a with
    | none => simp [applyBalOp, balanceAdd, creditAmt]
    | some x =>
      by_cases hx : x ≤ 0
      · simp [applyBalOp, balanceAdd, hx, creditAmt]
      · by_cases hx2 : 1000 < x
        · simp [applyBalOp, balanceAdd, hx, hx2, creditAmt]
        · cases hu : findUser users uid with
          | none => simp [applyBalOp, balanceAdd, hx, hx2, hu, creditAmt]
          | some user => simp [applyBalOp, balanceAdd, hx, hx2, hu, creditAmt]; omega
  | debit a mId vId => cases a <;> simp [creditAmt]

theorem debitAmt_le (users : List User) (uid now : String) (op : BalOp) :
    debitAmt op (applyBalOp users uid now op).2 = 0 ∨
      debitAmt op (applyBalOp users uid now op).2 ≤ effBal users uid := by
  cases op with
  | credit a => left; cases a <;> simp [debitAmt]
  | debit a mId vId =>
    cases a with
    | none => left; simp [applyBalOp, balanceDeduct, debitAmt]
    | some x =>
      by_cases hx : x ≤ 0
      · left; simp [applyBalOp, balanceDeduct, hx, debitAmt]
      · cases hu : findUser users uid with
        | none => left; simp [applyBalOp, balanceDeduct, hx, hu, debitAmt]
        | some user =>
          by_cases hc : user.balance.getD 0 < x
          · left; simp [applyBalOp, balanceDeduct, hx, hu, hc, debitAmt]
          · right
            simp [applyBalOp, balanceDeduct, hx, hu, hc, debitAmt, effBal]
            omega

theorem applyBalOp_nonneg (users : List User) (uid now : String) (op : BalOp)
    (h : 0 ≤ effBal users uid) :
    0 ≤ effBal (applyBalOp users uid now op).1 uid := by
  have h1 := applyBalOp_effBal users uid now op
  have h2 := creditAmt_nonneg users uid now op
  have h3 := debitAmt_le users uid now op
  omega

theorem applyBalOps_conservation (uid now : String) (ops : List BalOp) :
    ∀ users : List User,
      effBal (applyBalOps users uid now ops) uid =
        effBal users uid + admittedCreditSum users uid now ops
          - admittedDebitSum users uid now ops := by
  induction ops with
  | nil => intro users; simp [applyBalOps, admittedCreditSum, admittedDebitSum]
  | cons op ops ih =>
    intro users
    have h1 := applyBalOp_effBal users uid now op
    rw [applyBalOps, ih, admittedCreditSum, admittedDebitSum]
    omega

theorem applyBalOps_nonneg (uid now : String) (ops : List BalOp) :
    ∀ users : List User, 0 ≤ effBal users uid →
      0 ≤ effBal (applyBalOps users uid now ops) uid := by
  induction ops with
  | nil => intro users h; simpa [applyBalOps] using h
  | cons op ops ih =>
    intro users h
    exact ih _ (applyBalOp_nonneg users uid now op h)

theorem firstFailingReason_mem (c : Crypto) (bmid : String) (st : DBState) (v : Voucher)
    (r : String) (h : firstFailingReason c bmid st v = some r) :
    r ∈ ["Invalid format", "Wrong merchantId", "Missing issuedTo",
         "Missing public key in voucher", "Bad signature", "Signature verify error",
         "Duplicate voucherId"] := by
  rw [firstFailingReason] at h
  by_cases hstruct : strVal v.voucherId = none ∨ strVal v.merchantId = none ∨
      v.amount = none ∨ strVal v.signature = none
  · rw [if_pos hstruct] at h; injection h with h2; simp [← h2]
  · rw [if_neg hstruct] at h
    by_cases hm : strVal v.merchantId ≠ some bmid
    · rw [if_pos hm] at h; injection h with h2; simp [← h2]
    · rw [if_neg hm] at h
      by_cases hi : strVal v.issuedTo = none
      · rw [if_pos hi] at h; injection h with h2; simp [← h2]
      · rw [if_neg hi] at h
        cases hk : resolveKey st ((strVal v.issuedTo).getD "") v.publicKeyHex with
        | none => simp only [hk] at h; injection h with h2; simp [← h2]
        | some pub =>
          cases hv : verifyStep c pub
              (msgHashOf c ((strVal v.voucherId).getD "") ((strVal v.merchantId).getD "")
                (v.amount.getD 0) v.createdAt ((strVal v.issuedTo).getD ""))
              ((strVal v.signature).getD "") with
          | some r2 =>
            simp only [hk, hv] at h
            injection h with h2
            subst h2
            rcases verifyStep_values _ _ _ _ _ hv with h3 | h3 <;> simp [h3]
          | none =>
            simp only [hk, hv] at h
            by_cases hd : (findVoucher st ((strVal v.voucherId).getD "")).isSome
            · rw [if_pos hd] at h; injection h with h2; simp [← h2]
            · rw [if_neg hd] at h; cases h

theorem firstFailingReason_struct_passed (c : Crypto) (bmid : String) (st : DBState)
    (v : Voucher)
    (hstruct : ¬(strVal v.voucherId = none ∨ strVal v.merchantId = none ∨
      v.amount = none ∨ strVal v.signature = none)) :
    firstFailingReason c bmid st v ≠ some "Invalid format" := by
  intro h
  rw [firstFailingReason] at h
  rw [if_neg hstruct] at h
  by_cases hm : strVal v.merchantId ≠ some bmid
  · rw [if_pos hm] at h; injection h with h2; simp at h2
  · rw [if_neg hm] at h
    by_cases hi : strVal v.issuedTo = none
    · rw [if_pos hi] at h; injection h with h2; simp at h2
    · rw [if_neg hi] at h
      cases hk : resolveKey st ((strVal v.issuedTo).getD "") v.publicKeyHex with
      | none => simp only [hk] at h; injection h with h2; simp at h2
      | some pub =>
        cases hv : verifyStep c pub
            (msgHashOf c ((strVal v.voucherId).getD "") ((strVal v.merchantId).getD "")
              (v.amount.getD 0) v.createdAt ((strVal v.issuedTo).getD ""))
            ((strVal v.signature).getD "") with
        | some r2 =>
          simp only [hk, hv] at h
          injection h with h2
          rcases verifyStep_values _ _ _ _ _ hv with h3 | h3 <;> simp [h3] at h2
        | none =>
          simp only [hk, hv] at h
          by_cases hd : (findVoucher st ((strVal v.voucherId).getD "")).isSome
          · rw [if_pos hd] at h; injection h with h2; simp at h2
          · rw [if_neg hd] at h; cases h

theorem syncBatch_reasons (c : Crypto) (now bmid : String) (st : DBState) (vs : List Voucher) :
    ∀ e ∈ (syncBatch c now bmid st vs).2.2,
      e.reason ∈ ["Invalid format", "Wrong merchantId", "Missing issuedTo",
         "Missing public key in voucher", "Bad signature", "Signature verify error",
         "Duplicate voucherId"] := by
  induction vs generalizing st with
  | nil => simp [syncBatch]
  | cons v vs ih =>
    rcases h : syncOne c now bmid st v with ⟨st', res⟩
    cases res with
    | synced vid =>
      intro e he
      simp only [syncBatch, h] at he
      exact ih st' e he
    | rejectedR vidO r =>
      intro e he
      simp only [syncBatch, h, List.mem_cons] at he
      rcases he with he | he
      · have hsr : stepReason (syncOne c now bmid st v).2 = some r := by
          rw [h]; rfl
        rw [sync_check_order] at hsr
        have hmem := firstFailingReason_mem c bmid st v r hsr
        rw [he]
        simpa using hmem
      · exact ih st' e he

/-! Claim theorems. -/

/-- C1 counterexample: the second submission of `voucher1`, resubmitted by a
different merchant (batch declaring `M2`), is rejected with reason
"Wrong merchantId", not "Duplicate voucherId" — so it is not the case that
every later submission of an admitted `voucherId`, from any merchant, is
rejected with reason "Duplicate voucherId". -/
theorem c1_counterexample :
    (syncRequest cryptoOk "t1" emptyState { merchantId := "M1", vouchers := [voucher1] }).2 =
      .ok { syncedIds := ["v1"], rejected := [], totalStored := 1 }
    ∧ (syncRequest cryptoOk "t2"
        (syncRequest cryptoOk "t1" emptyState { merchantId := "M1", vouchers := [voucher1] }).1
        { merchantId := "M2", vouchers := [voucher1] }).2 =
      .ok { syncedIds := [],
            rejected := [{ voucherId := some "v1", reason := "Wrong merchantId" }],
            totalStored := 1 }
    ∧ ("Wrong merchantId" : String) ≠ "Duplicate voucherId" :=
  ⟨rfl, rfl, by decide⟩

/-- C1 (amended): across any sequence of sync requests processed one after
another, at most one submission of a given `voucherId` is admitted: starting
from a ledger whose `voucherId`s are pairwise distinct, they stay pairwise
distinct, so each `voucherId` contributes at most one stored document to
`totalStored`; and a submission whose `voucherId` is already stored and which
passes the structural, merchant, `issuedTo`, public-key and signature checks
is rejected with reason "Duplicate voucherId" and leaves the state unchanged.
(A later submission that fails an earlier check is rejected with that check's
reason instead — see the counterexample.) -/
theorem c1_voucherId_unique (c : Crypto) (now : String) (st : DBState)
    (reqs : List SyncRequest) (hnd : (ledgerIds st).Nodup) :
    (ledgerIds (processRequests c now st reqs)).Nodup
    ∧ (∀ vid, (ledgerIds (processRequests c now st reqs)).count vid ≤ 1)
    ∧ (∀ (now2 bmid : String) (st2 : DBState) (v : Voucher) (vid : String) (amt : Int)
          (sig iss pub : String),
        strVal v.voucherId = some vid → strVal v.merchantId = some bmid →
        v.amount = some amt → strVal v.signature = some sig →
        strVal v.issuedTo = some iss →
        resolveKey st2 iss v.publicKeyHex = some pub →
        verifyStep c pub (msgHashOf c vid bmid amt v.createdAt iss) sig = none →
        (findVoucher st2 vid).isSome →
        syncOne c now2 bmid st2 v = (st2, .rejectedR v.voucherId "Duplicate voucherId")) := by
  have hn := processRequests_nodup c now st reqs hnd
  refine ⟨hn, fun vid => List.nodup_iff_count_le_one.mp hn vid, ?_⟩
  intro now2 bmid st2 v vid amt sig iss pub h1 h2 h3 h4 h6 h7 h8 h9
  exact syncOne_duplicate c now2 bmid st2 v vid amt sig iss pub h1 h2 h3 h4 h6 h7 h8 h9

/-- Witness for C1: instantiates the theorem on the empty ledger with the
same voucher submitted in two consecutive requests, and on a state already
holding the voucher. -/
theorem c1_witness :
    (ledgerIds emptyState).Nodup ∧
    (ledgerIds (processRequests cryptoOk "t1" emptyState
      [{ merchantId := "M1", vouchers := [voucher1] },
       { merchantId := "M1", vouchers := [voucher1] }])).Nodup ∧
    syncOne cryptoOk "t2" "M1" stWithV1 voucher1 =
      (stWithV1, .rejectedR (some "v1") "Duplicate voucherId") :=
  ⟨by decide,
   (c1_voucherId_unique cryptoOk "t1" emptyState
      [{ merchantId := "M1", vouchers := [voucher1] },
       { merchantId := "M1", vouchers := [voucher1] }] (by decide)).1,
   (c1_voucherId_unique cryptoOk "t1" emptyState [] (by decide)).2.2 "t2" "M1" stWithV1
     voucher1 "v1" 50 "sig1" "u1" "K1" (by decide) (by decide) (by decide) (by decide)
     (by decide) (by decide) (by decide) (by decide)⟩

/-- C2: for every batch, every voucher is processed (the admitted and
rejected lists partition the batch, so with K rejections there are N-K
admissions), every rejected entry carries one of the handler's reason
strings, and a voucher whose step is rejected leaves the state unchanged, so
it neither prevents nor rolls back the processing of the rest of the
batch. -/
theorem c2_partial_batch (c : Crypto) (now bmid : String) (st : DBState) (vs : List Voucher) :
    (syncBatch c now bmid st vs).2.1.length + (syncBatch c now bmid st vs).2.2.length
        = vs.length
    ∧ (∀ e ∈ (syncBatch c now bmid st vs).2.2,
        e.reason ∈ ["Invalid format", "Wrong merchantId", "Missing issuedTo",
          "Missing public key in voucher", "Bad signature", "Signature verify error",
          "Duplicate voucherId"])
    ∧ (∀ (v : Voucher) (vs2 : List Voucher) (vidO : Option String) (r : String),
        (syncOne c now bmid st v).2 = .rejectedR vidO r →
        syncBatch c now bmid st (v :: vs2) =
          ((syncBatch c now bmid st vs2).1, (syncBatch c now bmid st vs2).2.1,
            ⟨vidO, r⟩ :: (syncBatch c now bmid st vs2).2.2)) :=
  ⟨syncBatch_length c now bmid st vs, syncBatch_reasons c now bmid st vs,
   fun v vs2 vidO r h => syncBatch_skip c now bmid st v vs2 vidO r h⟩

/-- Witness for C2: a two-voucher batch with one in-batch duplicate yields
one admission and one rejection, and a rejected head voucher contributes only
its rejection entry. -/
theorem c2_witness :
    ((syncBatch cryptoOk "t" "M1" emptyState [voucher1, voucher1]).2.1.length +
      (syncBatch cryptoOk "t" "M1" emptyState [voucher1, voucher1]).2.2.length = 2)
    ∧ ((syncOne cryptoOk "t" "M2" emptyState voucher1).2 =
        .rejectedR (some "v1") "Wrong merchantId")
    ∧ syncBatch cryptoOk "t" "M2" emptyState [voucher1] =
        ((syncBatch cryptoOk "t" "M2" emptyState []).1,
          (syncBatch cryptoOk "t" "M2" emptyState []).2.1,
          ⟨some "v1", "Wrong merchantId"⟩ :: (syncBatch cryptoOk "t" "M2" emptyState []).2.2) :=
  ⟨(c2_partial_batch cryptoOk "t" "M1" emptyState [voucher1, voucher1]).1,
   by decide,
   (c2_partial_batch cryptoOk "t" "M2" emptyState []).2.2 voucher1 [] (some "v1")
     "Wrong merchantId" (by decide)⟩

/-- C3: the canonical payload is built from exactly the five fields
`voucherId, merchantId, amount, createdAt, issuedTo` in a fixed key order, so
two vouchers that agree on those five fields (regardless of their `signature`
or `publicKeyHex`) produce byte-identical payloads, and the digest fed to
signature verification is the SHA-256 hash of that encoding. -/
theorem c3_canonical_payload (c : Crypto) (va vb : Voucher)
    (h1 : va.voucherId = vb.voucherId) (h2 : va.merchantId = vb.merchantId)
    (h3 : va.amount = vb.amount) (h4 : va.createdAt = vb.createdAt)
    (h5 : va.issuedTo = vb.issuedTo) :
    voucherPayload va = voucherPayload vb
    ∧ (∀ (vid vmid : String) (amt : Int) (ca : Option String) (iss : String),
        msgHashOf c vid vmid amt ca iss
          = c.sha256Hex (canonicalPayload vid vmid amt ca iss)) := by
  refine ⟨?_, fun vid vmid amt ca iss => rfl⟩
  rw [voucherPayload, voucherPayload, h1, h2, h3, h4, h5]

/-- Witness for C3: `voucher1` and `voucher1b` differ in `signature` and
`publicKeyHex` but agree on the five payload fields, and their canonical
payloads coincide. -/
theorem c3_witness :
    voucher1.voucherId = voucher1b.voucherId ∧ voucher1.merchantId = voucher1b.merchantId ∧
    voucher1.amount = voucher1b.amount ∧ voucher1.createdAt = voucher1b.createdAt ∧
    voucher1.issuedTo = voucher1b.issuedTo ∧ voucher1.signature ≠ voucher1b.signature ∧
    voucherPayload voucher1 = voucherPayload voucher1b :=
  ⟨rfl, rfl, rfl, rfl, rfl, by decide,
   (c3_canonical_payload cryptoOk voucher1 voucher1b rfl rfl rfl rfl rfl).1⟩

/-- C4 counterexample: `voucherNeg` carries the numeric amount `-5`; the
structural validation only tests `typeof v.amount !== "number"`, so the
voucher is not rejected — on an empty ledger with a verifying signature it is
admitted, refuting "a voucher whose amount is a non-positive number is
rejected at structural validation and never admitted". -/
theorem c4_counterexample :
    voucherNeg.amount = some (-5) ∧ ((-5 : Int) ≤ 0)
    ∧ (syncOne cryptoOk "t1" "M1" emptyState voucherNeg).2 = .synced "v2" :=
  ⟨rfl, by decide, by decide⟩

/-- C4 (amended): structural validation rejects a voucher — with reason
"Invalid format" and no state change — exactly when `voucherId`,
`merchantId` or `signature` is missing (or empty) or `amount` is not a
number; a voucher whose `merchantId` differs from the batch's declared
merchant is rejected with "Wrong merchantId", and a missing `issuedTo` with
"Missing issuedTo", again with no state change.  Positivity of a numeric
`amount` is not checked: a voucher with all four fields present is never
rejected as "Invalid format", whatever its amount. -/
theorem c4_structural_validation (c : Crypto) (now bmid : String) (st : DBState)
    (v : Voucher) :
    ((strVal v.voucherId = none ∨ strVal v.merchantId = none ∨ v.amount = none ∨
        strVal v.signature = none) →
      syncOne c now bmid st v = (st, .rejectedR v.voucherId "Invalid format"))
    ∧ (∀ vmid : String, strVal v.merchantId = some vmid → vmid ≠ bmid →
        ¬(strVal v.voucherId = none ∨ strVal v.merchantId = none ∨ v.amount = none ∨
          strVal v.signature = none) →
        syncOne c now bmid st v = (st, .rejectedR v.voucherId "Wrong merchantId"))
    ∧ (strVal v.issuedTo = none → strVal v.merchantId = some bmid →
        ¬(strVal v.voucherId = none ∨ strVal v.merchantId = none ∨ v.amount = none ∨
          strVal v.signature = none) →
        syncOne c now bmid st v = (st, .rejectedR v.voucherId "Missing issuedTo"))
    ∧ (¬(strVal v.voucherId = none ∨ strVal v.merchantId = none ∨ v.amount = none ∨
          strVal v.signature = none) →
        stepReason (syncOne c now bmid st v).2 ≠ some "Invalid format") := by
  refine ⟨?_, ?_, ?_, ?_⟩
  · intro h
    apply syncOne_reject_full
    rw [sync_check_order]
    unfold firstFailingReason
    rw [if_pos h]
  · intro vmid hm hne hstruct
    apply syncOne_reject_full
    rw [sync_check_order]
    unfold firstFailingReason
    rw [if_neg hstruct, if_pos (by simp [hm, hne])]
  · intro hiss hm hstruct
    apply syncOne_reject_full
    rw [sync_check_order]
    unfold firstFailingReason
    rw [if_neg hstruct, if_neg (by simp [hm]), if_pos hiss]
  · intro hstruct h
    rw [sync_check_order] at h
    exact firstFailingReason_struct_passed c bmid st v hstruct h

/-- Witness for C4: a voucher with no signature is rejected as
"Invalid format", and the negative-amount voucher (all fields present) is
never rejected as "Invalid format". -/
theorem c4_witness :
    (strVal voucherNoSig.voucherId = none ∨ strVal voucherNoSig.merchantId = none ∨
      voucherNoSig.amount = none ∨ strVal voucherNoSig.signature = none)
    ∧ syncOne cryptoOk "t" "M1" emptyState voucherNoSig =
        (emptyState, .rejectedR (some "v1") "Invalid format")
    ∧ stepReason (syncOne cryptoOk "t" "M1" emptyState voucherNeg).2
        ≠ some "Invalid format" :=
  ⟨by decide,
   (c4_structural_validation cryptoOk "t" "M1" emptyState voucherNoSig).1 (by decide),
   (c4_structural_validation cryptoOk "t" "M1" emptyState voucherNeg).2.2.2 (by decide)⟩

/-- C5 counterexample: under a library behaviour exhibiting all three
cryptographic failure conditions, an unparseable public key and a signature
whose verification throws produce the same rejection reason
("Signature verify error"), while only the returned-false case is
distinguished ("Bad signature") — two distinct reasons in total, not
three. -/
theorem c5_counterexample :
    stepReason (syncOne cryptoFail "t" "M1" emptyState voucherBadKey).2
      = some "Signature verify error"
    ∧ stepReason (syncOne cryptoFail "t" "M1" emptyState voucherThrowSig).2
      = some "Signature verify error"
    ∧ stepReason (syncOne cryptoFail "t" "M1" emptyState voucherFalseSig).2
      = some "Bad signature"
    ∧ stepReason (syncOne cryptoFail "t" "M1" emptyState voucherBadKey).2
      = stepReason (syncOne cryptoFail "t" "M1" emptyState voucherThrowSig).2 :=
  ⟨by decide, by decide, by decide, by decide⟩

/-- C5 (amended): each cryptographic failure is surfaced as a per-voucher
rejection (the handler is total — nothing escapes as an unhandled fault and
the state is unchanged), but under two distinct reasons rather than three: an
unparseable key and a signature whose verification throws both yield
"Signature verify error", and a verification that returns `false` (valid key
and signature over a different digest) yields "Bad signature". -/
theorem c5_crypto_failure_reasons (c : Crypto) (now bmid : String) (st : DBState)
    (v : Voucher) (vid : String) (amt : Int) (sig iss pub : String)
    (h1 : strVal v.voucherId = some vid) (h2 : strVal v.merchantId = some bmid)
    (h3 : v.amount = some amt) (h4 : strVal v.signature = some sig)
    (h6 : strVal v.issuedTo = some iss)
    (h7 : resolveKey st iss v.publicKeyHex = some pub) :
    (c.keyParses pub = false →
      syncOne c now bmid st v = (st, .rejectedR v.voucherId "Signature verify error"))
    ∧ (c.keyParses pub = true →
        c.verify pub (msgHashOf c vid bmid amt v.createdAt iss) sig = none →
        syncOne c now bmid st v = (st, .rejectedR v.voucherId "Signature verify error"))
    ∧ (c.keyParses pub = true →
        c.verify pub (msgHashOf c vid bmid amt v.createdAt iss) sig = some false →
        syncOne c now bmid st v = (st, .rejectedR v.voucherId "Bad signature")) := by
  refine ⟨?_, ?_, ?_⟩
  · intro hk
    simp [syncOne, h1, h2, h3, h4, h6, h7, verifyStep, hk]
  · intro hk hv
    simp [syncOne, h1, h2, h3, h4, h6, h7, verifyStep, hk, hv]
  · intro hk hv
    simp [syncOne, h1, h2, h3, h4, h6, h7, verifyStep, hk, hv]

/-- Witness for C5: the unparseable-key voucher is rejected as
"Signature verify error" with the state unchanged. -/
theorem c5_witness :
    resolveKey emptyState "u1" (some "badkey") = some "badkey"
    ∧ cryptoFail.keyParses "badkey" = false
    ∧ syncOne cryptoFail "t" "M1" emptyState voucherBadKey =
        (emptyState, .rejectedR (some "v1") "Signature verify error") :=
  ⟨by decide, by decide,
   (c5_crypto_failure_reasons cryptoFail "t" "M1" emptyState voucherBadKey "v1" 50 "sig1"
      "u1" "badkey" (by decide) (by decide) (by decide) (by decide) (by decide)
      (by decide)).1 (by decide)⟩

/-- C6 counterexample: a voucher from the previously-unseen identity `u1`
with a valid inline key passes signature verification, but because its
`voucherId` is already stored it is rejected as a duplicate *before* the
auto-registration step, and no key record is created for `u1` — refuting
"the key record is created whenever verification succeeds and no record
exists yet for that identity". -/
theorem c6_counterexample :
    (findVoucher stWithV1 "v1").isSome
    ∧ findUser stWithV1.users "u1" = none
    ∧ resolveKey stWithV1 "u1" voucher1.publicKeyHex = some "K1"
    ∧ verifyStep cryptoOk "K1"
        (msgHashOf cryptoOk "v1" "M1" 50 (some "t0") "u1") "sig1" = none
    ∧ syncOne cryptoOk "t2" "M1" stWithV1 voucher1 =
        (stWithV1, .rejectedR (some "v1") "Duplicate voucherId")
    ∧ findUser (syncOne cryptoOk "t2" "M1" stWithV1 voucher1).1.users "u1" = none :=
  ⟨by decide, by decide, by decide, by decide, by decide, by decide⟩

/-- C6 (amended): when a voucher from an identity with no stored user record
passes signature verification with an inline key *and* survives the duplicate
check (i.e. is admitted), a user record binding `issuedTo` to the verified
key is created, and a later voucher from the same identity that omits the
inline key resolves that stored key through the fallback lookup.  (If the
voucher is rejected as a duplicate, no record is created, even though
verification succeeded — see the counterexample.) -/
theorem c6_key_auto_provisioning (c : Crypto) (now bmid : String) (st : DBState)
    (v : Voucher) (vid : String) (amt : Int) (sig iss pub : String)
    (h1 : strVal v.voucherId = some vid) (h2 : strVal v.merchantId = some bmid)
    (h3 : v.amount = some amt) (h4 : strVal v.signature = some sig)
    (h6 : strVal v.issuedTo = some iss)
    (h7 : resolveKey st iss v.publicKeyHex = some pub)
    (h8 : verifyStep c pub (msgHashOf c vid bmid amt v.createdAt iss) sig = none)
    (h9 : findVoucher st vid = none)
    (h10 : findUser st.users iss = none) :
    (syncOne c now bmid st v).2 = .synced vid
    ∧ (syncOne c now bmid st v).1.users =
        st.users ++ [{ userId := iss, publicKeyHex := some pub, balance := none,
                       balanceHistory := [] }]
    ∧ (∀ inline2 : Option String, strVal inline2 = none →
        resolveKey (syncOne c now bmid st v).1 iss inline2 = some pub) := by
  have husers : (syncOne c now bmid st v).1.users =
      st.users ++ [{ userId := iss, publicKeyHex := some pub, balance := none,
                     balanceHistory := [] }] := by
    simp [syncOne, h1, h2, h3, h4, h6, h7, h8, h9, h10]
  refine ⟨by simp [syncOne, h1, h2, h3, h4, h6, h7, h8, h9, h10], husers, ?_⟩
  intro inline2 hin
  have hpub := resolveKey_some_ne_empty st iss v.publicKeyHex pub h7
  have hf : findUser (syncOne c now bmid st v).1.users iss =
      some { userId := iss, publicKeyHex := some pub, balance := none,
             balanceHistory := [] } := by
    rw [husers]
    exact findUser_append_right st.users iss _ h10 rfl
  have hres : resolveKey (syncOne c now bmid st v).1 iss inline2
      = strVal ((findUser (syncOne c now bmid st v).1.users iss).bind User.publicKeyHex) := by
    unfold resolveKey
    rw [hin]
  rw [hres, hf]
  simp [strVal, hpub]

/-- Witness for C6: admitting `voucher1` on the empty database creates the
key record for `u1`, and an identifier-only lookup afterwards resolves the
key `K1`. -/
theorem c6_witness :
    (syncOne cryptoOk "t1" "M1" emptyState voucher1).2 = .synced "v1"
    ∧ (syncOne cryptoOk "t1" "M1" emptyState voucher1).1.users =
        [{ userId := "u1", publicKeyHex := some "K1", balance := none,
           balanceHistory := [] }]
    ∧ resolveKey (syncOne cryptoOk "t1" "M1" emptyState voucher1).1 "u1" none = some "K1" :=
  have h := c6_key_auto_provisioning cryptoOk "t1" "M1" emptyState voucher1 "v1" 50 "sig1"
    "u1" "K1" (by decide) (by decide) (by decide) (by decide) (by decide) (by decide)
    (by decide) (by decide) (by decide)
  ⟨h.1, by simpa using h.2.1, h.2.2 none (by decide)⟩

/-- C7: for a debit by an existing identity with a positive numeric amount,
if the amount exceeds the current balance the request is rejected with an
error reporting the required amount and the available balance and the user
documents (balance and history) are unchanged; otherwise the balance
decreases by exactly the amount and exactly one `"payment"` history entry is
appended, recording `previousBalance`, `newBalance`, the timestamp and the
`merchantId`/`voucherId` payment context. -/
theorem c7_debit_insufficiency (users : List User) (uid now : String) (a : Int)
    (mId vId : Option String) (user : User)
    (hu : findUser users uid = some user) (ha : 0 < a) :
    (user.balance.getD 0 < a →
      balanceDeduct users uid (some a) mId vId now =
        (users, .insufficient a (user.balance.getD 0)))
    ∧ (¬ user.balance.getD 0 < a →
        (balanceDeduct users uid (some a) mId vId now).2 = .ok (user.balance.getD 0 - a)
        ∧ findUser (balanceDeduct users uid (some a) mId vId now).1 uid =
            some { user with
                     balance := some (user.balance.getD 0 - a),
                     balanceHistory := user.balanceHistory ++
                       [{ htype := "payment", amount := a, timestamp := now,
                          previousBalance := user.balance.getD 0,
                          newBalance := user.balance.getD 0 - a,
                          merchantId := mId, voucherId := vId }] }) := by
  have hna : ¬ a ≤ 0 := by omega
  constructor
  · intro hc
    simp [balanceDeduct, hna, hu, hc]
  · intro hc
    constructor
    · simp [balanceDeduct, hna, hu, hc]
    · simp [balanceDeduct, hna, hu, hc, findUser_updateFirst]

/-- Witness for C7: debiting 120 against a balance of 100 is rejected
reporting `required = 120` and `available = 100` with no state change, and
debiting 30 succeeds with a new balance of 70. -/
theorem c7_witness :
    findUser [user100] "u1" = some user100 ∧ ((0 : Int) < 120) ∧
    balanceDeduct [user100] "u1" (some 120) (some "M1") (some "v9") "t3" =
      ([user100], .insufficient 120 100) ∧
    (balanceDeduct [user100] "u1" (some 30) (some "M1") (some "v9") "t3").2 = .ok 70 :=
  ⟨by decide, by decide,
   (c7_debit_insufficiency [user100] "u1" "t3" 120 (some "M1") (some "v9") user100
      (by decide) (by decide)).1 (by decide),
   ((c7_debit_insufficiency [user100] "u1" "t3" 30 (some "M1") (some "v9") user100
      (by decide) (by decide)).2 (by decide)).1⟩

/-- C8: a credit by an existing identity is rejected when the amount is not a
positive number or exceeds the per-operation maximum of 1000, with no state
change; once these validations pass the credit always succeeds: the balance
increases by exactly the amount and one `"add"` history entry recording
`previousBalance`, `newBalance` and the timestamp is appended. -/
theorem c8_credit_validation (users : List User) (uid now : String) (user : User)
    (hu : findUser users uid = some user) :
    (∀ a : Option Int, (∀ x : Int, a = some x → x ≤ 0) →
      balanceAdd users uid a now = (users, .invalidAmount))
    ∧ (∀ x : Int, 1000 < x → balanceAdd users uid (some x) now = (users, .maxExceeded))
    ∧ (∀ x : Int, 0 < x → x ≤ 1000 →
        (balanceAdd users uid (some x) now).2 = .ok (user.balance.getD 0 + x)
        ∧ findUser (balanceAdd users uid (some x) now).1 uid =
            some { user with
                     balance := some (user.balance.getD 0 + x),
                     balanceHistory := user.balanceHistory ++
                       [{ htype := "add", amount := x, timestamp := now,
                          previousBalance := user.balance.getD 0,
                          newBalance := user.balance.getD 0 + x,
                          merchantId := none, voucherId := none }] }) := by
  refine ⟨?_, ?_, ?_⟩
  · intro a hx
    cases a with
    | none => simp [balanceAdd]
    | some x => simp [balanceAdd, hx x rfl]
  · intro x hx
    have hna : ¬ x ≤ 0 := by omega
    simp [balanceAdd, hna, hx]
  · intro x hx1 hx2
    have hna : ¬ x ≤ 0 := by omega
    have hnm : ¬ 1000 < x := by omega
    exact ⟨by simp [balanceAdd, hna, hnm, hu],
           by simp [balanceAdd, hna, hnm, hu, findUser_updateFirst]⟩

/-- Witness for C8: crediting 1001 is rejected by the anti-abuse ceiling,
crediting 0 is rejected as an invalid amount, and crediting 200 against a
balance of 100 succeeds with a new balance of 300. -/
theorem c8_witness :
    findUser [user100] "u1" = some user100 ∧
    balanceAdd [user100] "u1" (some 1001) "t3" = ([user100], .maxExceeded) ∧
    balanceAdd [user100] "u1" (some 0) "t3" = ([user100], .invalidAmount) ∧
    (balanceAdd [user100] "u1" (some 200) "t3").2 = .ok 300 :=
  ⟨by decide,
   (c8_credit_validation [user100] "u1" "t3" user100 (by decide)).2.1 1001 (by decide),
   (c8_credit_validation [user100] "u1" "t3" user100 (by decide)).1 (some 0)
     (by intro x hx; cases hx; omega),
   ((c8_credit_validation [user100] "u1" "t3" user100 (by decide)).2.2 200 (by decide)
     (by decide)).1⟩

/-- C9: over any sequence of credit/debit operations on one identity, the
final effective balance equals the initial balance plus the sum of the
admitted credit amounts minus the sum of the admitted debit amounts, and —
starting from a non-negative balance — the balance is non-negative after
every prefix of the sequence. -/
theorem c9_balance_conservation (users : List User) (uid now : String) (ops : List BalOp)
    (h0 : 0 ≤ effBal users uid) :
    effBal (applyBalOps users uid now ops) uid =
      effBal users uid + admittedCreditSum users uid now ops
        - admittedDebitSum users uid now ops
    ∧ ∀ pre suf, ops = pre ++ suf → 0 ≤ effBal (applyBalOps users uid now pre) uid :=
  ⟨applyBalOps_conservation uid now ops users,
   fun pre _ _ => applyBalOps_nonneg uid now pre users h0⟩

/-- Witness for C9: a credit of 100 followed by a debit of 30 on a balance of
100 conserves value, and every prefix leaves a non-negative balance. -/
theorem c9_witness :
    ((0 : Int) ≤ effBal [user100] "u1")
    ∧ effBal (applyBalOps [user100] "u1" "t"
        [BalOp.credit (some 100), BalOp.debit (some 30) none none]) "u1" =
      effBal [user100] "u1"
        + admittedCreditSum [user100] "u1" "t"
            [BalOp.credit (some 100), BalOp.debit (some 30) none none]
        - admittedDebitSum [user100] "u1" "t"
            [BalOp.credit (some 100), BalOp.debit (some 30) none none]
    ∧ 0 ≤ effBal (applyBalOps [user100] "u1" "t" [BalOp.credit (some 100)]) "u1" :=
  ⟨by decide,
   (c9_balance_conservation [user100] "u1" "t"
      [BalOp.credit (some 100), BalOp.debit (some 30) none none] (by decide)).1,
   (c9_balance_conservation [user100] "u1" "t"
      [BalOp.credit (some 100), BalOp.debit (some 30) none none] (by decide)).2
     [BalOp.credit (some 100)] [BalOp.debit (some 30) none none] rfl⟩

/-- C10: the per-voucher checks run in the fixed order — structural format,
merchant match, `issuedTo` presence, public-key availability, signature
validity, then duplicate `voucherId` — and the reported rejection reason is
that of the first failing check; in particular an already-stored voucher
whose signature fails verification is rejected as "Bad signature", never
reaching the duplicate check. -/
theorem c10_first_failing_check (c : Crypto) (now bmid : String) (st : DBState)
    (v : Voucher) :
    stepReason (syncOne c now bmid st v).2 = firstFailingReason c bmid st v
    ∧ (∀ (vid : String) (amt : Int) (sig iss pub : String),
        strVal v.voucherId = some vid → strVal v.merchantId = some bmid →
        v.amount = some amt → strVal v.signature = some sig →
        strVal v.issuedTo = some iss →
        resolveKey st iss v.publicKeyHex = some pub →
        verifyStep c pub (msgHashOf c vid bmid amt v.createdAt iss) sig
          = some "Bad signature" →
        (findVoucher st vid).isSome →
        syncOne c now bmid st v = (st, .rejectedR v.voucherId "Bad signature")) := by
  refine ⟨sync_check_order c now bmid st v, ?_⟩
  intro vid amt sig iss pub h1 h2 h3 h4 h6 h7 h8 h9
  simp [syncOne, h1, h2, h3, h4, h6, h7, h8]

/-- Witness for C10: `voucher1` is already stored and its signature fails
under `cryptoBad`, and it is rejected as "Bad signature", not as
"Duplicate voucherId". -/
theorem c10_witness :
    (findVoucher stWithV1 "v1").isSome
    ∧ syncOne cryptoBad "t" "M1" stWithV1 voucher1 =
        (stWithV1, .rejectedR (some "v1") "Bad signature") :=
  ⟨by decide,
   (c10_first_failing_check cryptoBad "t" "M1" stWithV1 voucher1).2 "v1" 50 "sig1" "u1"
     "K1" (by decide) (by decide) (by decide) (by decide) (by decide) (by decide)
     (by decide) (by decide)⟩

end OfflinePay
